import Mathlib

/-!
Verification of `src/snippets/rust_errors/fizz_propagate.rs`.

The Rust program defines two fallible stages `fizz` and `buzz` over `i32`
returning `Result<i32, String>`, a pipeline `fizzbuzz` chaining them with the
`?` operator, and a `main` driver printing one line per input `i` in `1..100`.

Modelling choices:
* `Result<i32, String>` is the inductive `Result Int String` below, with the
  Rust constructor names `Ok` and `Err`.
* Rust's `%` on `i32` is truncated remainder, which is `Int.tmod`; a Rust
  `num % k == 0` test agrees with divisibility `k ∣ num` for every sign
  (`Int.dvd_iff_tmod_eq_zero`).
* `i32` is modelled by `Int`: the driver only ever evaluates the pipeline on
  1..99, far from the `i32` bounds, so wrap-around never occurs there.
* `main`'s printed output is modelled as the list of lines `mainOutput`.
-/

namespace FizzPropagate

/-- Rust's `Result<T, E>` tagged union, as used by the snippet. -/
inductive Result (α ε : Type) where
  | Ok : α → Result α ε
  | Err : ε → Result α ε
  deriving DecidableEq

/-- Embeds `fn fizz(num: i32) -> Result<i32, String>`:
`if num % 3 == 0 { return Err(String::from("fizz")); } Ok(num + 3)`. -/
def fizz (num : Int) : Result Int String :=
  if num.tmod 3 = 0 then .Err "fizz" else .Ok (num + 3)

/-- Embeds `fn buzz(num: i32) -> Result<i32, String>`:
`if num % 5 == 0 { return Err(String::from("buzz")); } Ok(num + 5)`. -/
def buzz (num : Int) : Result Int String :=
  if num.tmod 5 = 0 then .Err "buzz" else .Ok (num + 5)

/-- Embeds `fn fizzbuzz(num: i32) -> Result<i32, String>`:
`buzz(fizz(num)?)`.  The match is exactly the desugaring of the `?` operator:
propagate an `Err` from `fizz` unchanged, otherwise feed the payload to
`buzz`. -/
def fizzbuzz (num : Int) : Result Int String :=
  match fizz num with
  | .Err msg => .Err msg
  | .Ok m => buzz m

/-- Embeds the body of the `match` in `main`: the line printed for input `i`,
either `"{i} => {num}"` or `"{i} => Error: {msg}"`. -/
def formatLine (i : Int) : String :=
  match fizzbuzz i with
  | .Ok num => toString i ++ " => " ++ toString num
  | .Err msg => toString i ++ " => Error: " ++ msg

/-- Embeds the `for i in 1..100` loop of `main`: the list of printed lines, in
iteration order.  `List.range' 1 99` is `[1, 2, ..., 99]`, matching Rust's
half-open `1..100`. -/
def mainOutput : List String :=
  (List.range' 1 99).map fun i => formatLine (Int.ofNat i)

/-- Every failure of the pipeline carries one of the two tags. -/
lemma fizzbuzz_error_tags (n : Int) (msg : String) (h : fizzbuzz n = .Err msg) :
    msg = "fizz" ∨ msg = "buzz" := by
  by_cases h3 : n.tmod 3 = 0
  · simp [fizzbuzz, fizz, h3] at h
    exact Or.inl h.symm
  · by_cases h5 : (n + 3).tmod 5 = 0
    · simp [fizzbuzz, fizz, buzz, h3, h5] at h
      exact Or.inr h.symm
    · simp [fizzbuzz, fizz, buzz, h3, h5] at h

/-- Claim C8: for every integer `n`, `fizz n` fails with tag `"fizz"` when `n`
is evenly divisible by 3, and otherwise returns `Ok (n + 3)`. -/
theorem fizz_contract (n : Int) :
    ((3:Int) ∣ n → fizz n = .Err "fizz") ∧ (¬ (3:Int) ∣ n → fizz n = .Ok (n + 3)) := by
  constructor
  · intro h
    simp [fizz, Int.tmod_eq_zero_of_dvd h]
  · intro h
    rw [Int.dvd_iff_tmod_eq_zero] at h
    simp [fizz, h]

/-- Witness for C8 at `n = 3` and `n = 1`. -/
theorem fizz_contract_witness :
    fizz 3 = Result.Err "fizz" ∧ fizz 1 = Result.Ok (1 + 3) :=
  ⟨(fizz_contract 3).1 (by decide), (fizz_contract 1).2 (by decide)⟩

/-- Claim C7: for every integer `n`, `buzz n` fails with tag `"buzz"` when `n`
is evenly divisible by 5, and otherwise returns `Ok (n + 5)`. -/
theorem buzz_contract (n : Int) :
    ((5:Int) ∣ n → buzz n = .Err "buzz") ∧ (¬ (5:Int) ∣ n → buzz n = .Ok (n + 5)) := by
  constructor
  · intro h
    simp [buzz, Int.tmod_eq_zero_of_dvd h]
  · intro h
    rw [Int.dvd_iff_tmod_eq_zero] at h
    simp [buzz, h]

/-- Witness for C7 at `n = 5` and `n = 7`. -/
theorem buzz_contract_witness :
    buzz 5 = Result.Err "buzz" ∧ buzz 7 = Result.Ok (7 + 5) :=
  ⟨(buzz_contract 5).1 (by decide), (buzz_contract 7).2 (by decide)⟩

/-- Claim C3: for every integer `n` divisible by 3, `fizzbuzz n` fails with tag
`"fizz"`, regardless of divisibility by 5 (the fizz stage runs first and
short-circuits). -/
theorem fizzbuzz_fizz_of_dvd_three (n : Int) (h : (3:Int) ∣ n) :
    fizzbuzz n = .Err "fizz" := by
  simp [fizzbuzz, fizz, Int.tmod_eq_zero_of_dvd h]

/-- Witness for C3 at `n = 15`, which is divisible by both 3 and 5. -/
theorem fizzbuzz_fizz_of_dvd_three_witness :
    (3:Int) ∣ 15 ∧ (5:Int) ∣ 15 ∧ fizzbuzz 15 = Result.Err "fizz" :=
  ⟨by decide, by decide, fizzbuzz_fizz_of_dvd_three 15 (by decide)⟩

/-- Claim C10: whenever the pipeline succeeds, the success value is `n + 8`. -/
theorem fizzbuzz_ok_value (n m : Int) (h : fizzbuzz n = .Ok m) : m = n + 8 := by
  by_cases h3 : n.tmod 3 = 0
  · simp [fizzbuzz, fizz, h3] at h
  · by_cases h5 : (n + 3).tmod 5 = 0
    · simp [fizzbuzz, fizz, buzz, h3, h5] at h
    · simp [fizzbuzz, fizz, buzz, h3, h5] at h
      omega

/-- Witness for C10 at `n = 1`, where `fizzbuzz 1 = Ok 9`. -/
theorem fizzbuzz_ok_value_witness : (9:Int) = 1 + 8 :=
  fizzbuzz_ok_value 1 9 (by decide)

/-- Claim C6: the pipeline propagates a fizz-stage failure unchanged without
invoking the buzz stage, and on fizz-stage success `Ok m` returns `buzz m`
unchanged. -/
theorem fizzbuzz_short_circuit (n : Int) :
    (∀ msg, fizz n = .Err msg → fizzbuzz n = .Err msg) ∧
    (∀ m, fizz n = .Ok m → fizzbuzz n = buzz m) := by
  constructor
  · intro msg hmsg
    simp [fizzbuzz, hmsg]
  · intro m hm
    simp [fizzbuzz, hm]

/-- Witness for C6: at `n = 3` the fizz failure propagates, at `n = 1` the buzz
stage receives the fizz output `4`. -/
theorem fizzbuzz_short_circuit_witness :
    fizzbuzz 3 = Result.Err "fizz" ∧ fizzbuzz 1 = buzz 4 :=
  ⟨(fizzbuzz_short_circuit 3).1 "fizz" (by decide),
   (fizzbuzz_short_circuit 1).2 4 (by decide)⟩

/-- Claim C9: the pipeline fails with tag `"buzz"` exactly when `n` is not
divisible by 3 and the fizz output `n + 3` is divisible by 5 (the buzz check
applies to `n + 3`, not to `n`); in particular every `n` congruent to 2 modulo
5 and not divisible by 3 fails with `"buzz"`. -/
theorem fizzbuzz_buzz_characterization (n : Int) :
    (fizzbuzz n = .Err "buzz" ↔ ¬ (3:Int) ∣ n ∧ (5:Int) ∣ (n + 3)) ∧
    (n % 5 = 2 → ¬ (3:Int) ∣ n → fizzbuzz n = .Err "buzz") := by
  have key : fizzbuzz n = .Err "buzz" ↔ ¬ (3:Int) ∣ n ∧ (5:Int) ∣ (n + 3) := by
    by_cases h3 : n.tmod 3 = 0
    · have hd3 : (3:Int) ∣ n := Int.dvd_of_tmod_eq_zero h3
      simp [fizzbuzz, fizz, h3, hd3]
    · have h3' : ¬ (3:Int) ∣ n := fun hd => h3 (Int.tmod_eq_zero_of_dvd hd)
      by_cases h5 : (n + 3).tmod 5 = 0
      · have hd5 : (5:Int) ∣ (n + 3) := Int.dvd_of_tmod_eq_zero h5
        simp [fizzbuzz, fizz, buzz, h3, h5, h3', hd5]
      · have h5' : ¬ (5:Int) ∣ (n + 3) := fun hd => h5 (Int.tmod_eq_zero_of_dvd hd)
        simp [fizzbuzz, fizz, buzz, h3, h5, h3', h5']
  constructor
  · exact key
  · intro hmod h3
    apply key.mpr
    refine ⟨h3, ?_⟩
    have h0 : (n + 3) % 5 = 0 := by omega
    exact Int.dvd_of_emod_eq_zero h0

/-- Witness for C9 at `n = 2`: `2 ≡ 2 (mod 5)`, not divisible by 3, and the
pipeline fails with `"buzz"` since the buzz stage receives `5`. -/
theorem fizzbuzz_buzz_characterization_witness :
    fizzbuzz 2 = Result.Err "buzz" :=
  (fizzbuzz_buzz_characterization 2).2 (by decide) (by decide)

/-- Claim C1 counterexample: `5` is divisible by 5 and not by 3, yet the
pipeline does not fail with `"buzz"`: it returns `Ok 13`, because the buzz
check applies to the fizz output `5 + 3 = 8`. -/
theorem fizzbuzz_five_cex :
    (5:Int) ∣ 5 ∧ ¬ (3:Int) ∣ 5 ∧ fizzbuzz 5 ≠ Result.Err "buzz" ∧
      fizzbuzz 5 = Result.Ok 13 := by
  decide

/-- Claim C1 amended: for every integer `n` not divisible by 3 such that the
fizz output `n + 3` is divisible by 5, the pipeline fails with `"buzz"`. -/
theorem fizzbuzz_buzz_amended (n : Int) (h3 : ¬ (3:Int) ∣ n)
    (h5 : (5:Int) ∣ (n + 3)) : fizzbuzz n = .Err "buzz" := by
  have h3' : n.tmod 3 ≠ 0 := fun hc => h3 (Int.dvd_of_tmod_eq_zero hc)
  simp [fizzbuzz, fizz, buzz, h3', Int.tmod_eq_zero_of_dvd h5]

/-- Witness for amended C1 at `n = 2`. -/
theorem fizzbuzz_buzz_amended_witness : fizzbuzz 2 = Result.Err "buzz" :=
  fizzbuzz_buzz_amended 2 (by decide) (by decide)

/-- Claim C2 counterexample: `2` is divisible by neither 3 nor 5, yet the
pipeline does not return `Ok (2 + 8)`: it fails with `"buzz"`, because the
buzz stage receives `2 + 3 = 5`. -/
theorem fizzbuzz_two_cex :
    ¬ (3:Int) ∣ 2 ∧ ¬ (5:Int) ∣ 2 ∧ fizzbuzz 2 ≠ Result.Ok (2 + 8) ∧
      fizzbuzz 2 = Result.Err "buzz" := by
  decide

/-- Claim C2 amended: for every integer `n` not divisible by 3 such that the
fizz output `n + 3` is not divisible by 5, the pipeline succeeds with
`Ok (n + 8)`. -/
theorem fizzbuzz_ok_amended (n : Int) (h3 : ¬ (3:Int) ∣ n)
    (h5 : ¬ (5:Int) ∣ (n + 3)) : fizzbuzz n = .Ok (n + 8) := by
  have h3' : n.tmod 3 ≠ 0 := fun hc => h3 (Int.dvd_of_tmod_eq_zero hc)
  have h5' : (n + 3).tmod 5 ≠ 0 := fun hc => h5 (Int.dvd_of_tmod_eq_zero hc)
  have : n + 3 + 5 = n + 8 := by omega
  simp [fizzbuzz, fizz, buzz, h3', h5', this]

/-- Witness for amended C2 at `n = 1`: `fizzbuzz 1 = Ok 9`. -/
theorem fizzbuzz_ok_amended_witness : fizzbuzz 1 = Result.Ok (1 + 8) :=
  fizzbuzz_ok_amended 1 (by decide) (by decide)

/-- Claim C4 counterexample: of the spec's five concrete cases, two fail on the
code: `fizzbuzz 5` is not `Err "buzz"` and `fizzbuzz 7` is not `Ok 15`. -/
theorem fizzbuzz_concrete_cases_cex :
    fizzbuzz 5 ≠ Result.Err "buzz" ∧ fizzbuzz 7 ≠ Result.Ok 15 := by
  decide

/-- Claim C4 amended: the concrete cases as the code computes them:
`fizzbuzz 1 = Ok 9`, `fizzbuzz 3 = Err "fizz"`, `fizzbuzz 5 = Ok 13`,
`fizzbuzz 15 = Err "fizz"`, `fizzbuzz 7 = Err "buzz"`. -/
theorem fizzbuzz_concrete_cases :
    fizzbuzz 1 = Result.Ok 9 ∧ fizzbuzz 3 = Result.Err "fizz" ∧
      fizzbuzz 5 = Result.Ok 13 ∧ fizzbuzz 15 = Result.Err "fizz" ∧
      fizzbuzz 7 = Result.Err "buzz" := by
  decide

/-- Claim C5: the driver emits exactly 99 lines, the line at position `k`
(0-based) is the one for input `k + 1` — so the inputs are 1 through 99 in
ascending order, one line per value — and that line reads
`"<i> => <result>"` when the pipeline succeeds and `"<i> => Error: <tag>"`
with tag `"fizz"` or `"buzz"` when it fails. -/
theorem mainOutput_lines :
    mainOutput.length = 99 ∧
    ∀ k : Nat, k < 99 →
      mainOutput[k]? = some (formatLine (Int.ofNat (k + 1))) ∧
      (∀ num, fizzbuzz (Int.ofNat (k + 1)) = .Ok num →
        formatLine (Int.ofNat (k + 1)) =
          toString (Int.ofNat (k + 1)) ++ " => " ++ toString num) ∧
      (∀ msg, fizzbuzz (Int.ofNat (k + 1)) = .Err msg →
        (msg = "fizz" ∨ msg = "buzz") ∧
        formatLine (Int.ofNat (k + 1)) =
          toString (Int.ofNat (k + 1)) ++ " => Error: " ++ msg) := by
  refine ⟨by simp [mainOutput], fun k hk => ⟨?_, ?_, ?_⟩⟩
  · have h1 : (List.range' 1 99)[k]? = some (1 + k) := by
      simpa using List.getElem?_range' 1 1 hk
    simp [mainOutput, h1, Nat.add_comm]
  · intro num hnum
    simp only [formatLine, hnum]
  · intro msg hmsg
    exact ⟨fizzbuzz_error_tags _ msg hmsg, by simp only [formatLine, hmsg]⟩

/-- Witness for C5 at position `k = 4`, the line for input 5. -/
theorem mainOutput_lines_witness :
    mainOutput[4]? = some (formatLine (Int.ofNat (4 + 1))) :=
  (mainOutput_lines.2 4 (by decide)).1

end FizzPropagate
